import Mathlib

/-!
# Tech-Checkin: verification of the Appointment Check-In Scheduling & Notification Engine

Shallow embedding of the core of the Tech-Checkin repository
(`src/alt_smartsheet.py`, `src/check_in.py`, `src/CheckinAPI.py`, `src/sms.py`).

Conventions of the embedding:
* Python `datetime` values are minutes: a naive datetime is its local wall-clock
  minute count, an aware datetime is a pair (wall, utc-offset) whose absolute
  instant is `wall - off`.  A `pytz` timezone is a pair of functions
  (local wall minute ↦ offset, utc minute ↦ offset) so that DST rules are
  arbitrary.
* Fallible Python code returns `Except PyErr`; uncaught Python exceptions
  (`TypeError`, `AttributeError`, `ValueError`, `RuntimeError`, `StopIteration`,
  FastAPI `HTTPException`) are `PyErr` constructors.
* Spreadsheet cell values are given typed fields on `Row`; the external
  phonenumbers library and the GeoNames geocoder are oracle functions passed in
  as parameters.
* String algorithms are implemented over `List Char` (structurally recursive,
  so concrete runs reduce in the kernel) and wrapped back into `String`.
-/

deriving instance DecidableEq for Except

/-- Characters Python `str.strip()` removes (ASCII whitespace suffices for
spreadsheet cell values). -/
def isPySpace (c : Char) : Bool := c = ' ' || c = '\t' || c = '\n' || c = '\r'

/-- Strip leading and trailing whitespace from a character list. -/
def trimChars (cs : List Char) : List Char :=
  ((cs.dropWhile isPySpace).reverse.dropWhile isPySpace).reverse

/-- Python `str.strip()`. -/
def pyStrip (s : String) : String := (trimChars s.data).asString

/-- Accumulate a decimal digit string; `none` on any non-digit. -/
def digitsNatAux : List Char → Nat → Option Nat
  | [], acc => some acc
  | c :: cs, acc =>
    if c.isDigit then digitsNatAux cs (acc * 10 + (c.toNat - '0'.toNat)) else none

/-- Parse a non-empty all-digit character list as a natural number. -/
def digitsNat? : List Char → Option Nat
  | [] => none
  | cs => digitsNatAux cs 0

/-- Python `int(s)` on a string: optional surrounding whitespace, optional sign,
then decimal digits; anything else raises `ValueError` (here: `none`). -/
def pyInt? (s : String) : Option Int :=
  match trimChars s.data with
  | '-' :: cs => (digitsNat? cs).map (fun n => -(n : Int))
  | '+' :: cs => (digitsNat? cs).map (fun n => (n : Int))
  | cs => (digitsNat? cs).map (fun n => (n : Int))

/-- Python `s.split(sep)` for a one-character separator. -/
def splitOnChar (sep : Char) : List Char → List (List Char)
  | [] => [[]]
  | c :: cs =>
    let r := splitOnChar sep cs
    if c = sep then [] :: r
    else
      match r with
      | [] => [[c]]
      | h :: t => (c :: h) :: t

/-- Python `s.replace(c, '')` for a one-character pattern. -/
def removeChar (c : Char) (cs : List Char) : List Char := cs.filter (fun d => d ≠ c)

/-- Python `s.replace(a, b)` for one-character pattern and replacement. -/
def mapChar (a b : Char) (cs : List Char) : List Char :=
  cs.map (fun c => if c = a then b else c)

/-- Python `sep.join(parts)`. -/
def joinSep (sep : String) : List String → String
  | [] => ""
  | [x] => x
  | x :: xs => x ++ sep ++ joinSep sep xs

/-- Uncaught Python exception kinds that the embedded code can raise. -/
inductive PyErr
  | valueError (msg : String)
  | typeError (msg : String)
  | attributeError (msg : String)
  | runtimeError (msg : String)
  | nameError (msg : String)
  | stopIteration
  | httpException (code : Nat) (detail : String)
  deriving Repr, DecidableEq

/-- `phonenumbers.PhoneNumber` after a successful region-aware parse and
validity check; only its E.164 rendering is observable by this core. -/
structure Phone where
  e164 : String
  deriving Repr, DecidableEq

/-- Raw value of the `WORK MARKET #` cell: missing (`None`), numeric
(int, or a float already truncated by `int()`), or a string. -/
inductive WmVal
  | none
  | int (n : Int)
  | str (s : String)
  deriving Repr, DecidableEq

/-- One appointment row of the tracker report
(`alt_smartsheet.py`, cell values accessed by column title). -/
structure Row where
  row_number : Nat
  row_id : Nat
  sheet_id : Nat
  /-- `1 HR Pre-call` checkbox -/
  one_hr_precall : Bool
  /-- `24 HR Pre-call` checkbox -/
  twenty_four_hr_precall : Bool
  /-- `Zip Code` cell (string form) -/
  zip_code : String
  /-- `Secured Date` cell: `some d` (epoch day count) iff `date.fromisoformat`
  succeeds, `none` when the cell is missing or malformed -/
  secured_date : Option Int
  /-- `Secured Time` cell as the integer `int(value)` -/
  secured_time : Nat
  /-- `Address` cell -/
  address_cell : Option String
  /-- `City` cell -/
  city_cell : Option String
  /-- `State` cell -/
  state_cell : Option String
  /-- `Tech Name (First and Last)` cell -/
  tech_name_cell : String
  /-- `Tech Phone #` cell, as the string `str(query)` handed to the parser -/
  tech_phone_cell : String
  /-- `SITE ID` cell -/
  site_id_cell : String
  /-- `COMCAST PO` cell -/
  comcast_po : Option String
  /-- `WORK MARKET #` cell -/
  work_market_cell : WmVal
  deriving Repr, DecidableEq

/-- `AllTrackerSheet.get_postal_code` (alt_smartsheet.py:85-102): integer-like
values are re-rendered and zero-padded to 5 digits; otherwise the value must be
a 10-character `NNNNN-NNNN` ZIP+4 string. -/
def get_postal_code (value : String) : Except PyErr String :=
  match pyInt? value with
  | some n =>
    let postal_code := toString n
    if postal_code.length < 5 then
      .ok ((List.replicate (5 - postal_code.length) '0').asString ++ postal_code)
    else
      .ok postal_code
  | none =>
    if value.length ≠ 10 then
      .error (.valueError s!"Unrecognized number of digits for zip {value}.")
    else
      match splitOnChar '-' value.data with
      | [a, b] =>
        if a.length = 5 ∧ b.length = 4 then .ok value
        else .error (.valueError s!"Unrecognized format for zip {value}.")
      | _ => .error (.valueError s!"Unrecognized format for zip {value}.")

/-- `AllTrackerSheet.get_work_market_num_id` (alt_smartsheet.py:180-194):
`int(raw)`; on `ValueError` retry with the trailing `/`-segment; on `TypeError`
(a `None` cell) log a warning and return the empty string. -/
def get_work_market_num_id : WmVal → Except PyErr String
  | .none => .ok ""
  | .int n => .ok (toString n)
  | .str s =>
    match pyInt? s with
    | some n => .ok (toString n)
    | Option.none =>
      match pyInt? ((splitOnChar '/' s.data).getLastD []).asString with
      | some n => .ok (toString n)
      | Option.none =>
        .error (.valueError "Work market number ran into an uncaught exception case")

/-- A `pytz` timezone: UTC offset in minutes as a function of local wall-clock
time (used by `localize`) and of UTC time (used by `normalize`), so arbitrary
DST rules are representable. -/
structure PyTz where
  localToOff : Int → Int
  utcToOff : Int → Int

/-- A timezone-aware datetime: local wall-clock minutes plus the UTC offset in
minutes that its (fixed-offset, pytz-style) tzinfo carries. -/
structure AwareDT where
  wall : Int
  off : Int
  deriving Repr, DecidableEq

/-- The absolute UTC instant an aware datetime denotes. -/
def AwareDT.absMin (d : AwareDT) : Int := d.wall - d.off

/-- `pytz` `tz.localize(naive_dt)`: attach the offset the zone assigns to that
local wall-clock time. -/
def localize (tz : PyTz) (wall : Int) : AwareDT := ⟨wall, tz.localToOff wall⟩

/-- `pytz` `tz.normalize(dt)`: convert to UTC and back, re-deriving the offset
for the instant actually denoted (the absolute instant is preserved). -/
def PyTz.normalize (tz : PyTz) (d : AwareDT) : AwareDT :=
  let u := d.wall - d.off
  ⟨u + tz.utcToOff u, tz.utcToOff u⟩

/-- `normalize` preserves the absolute instant of its argument. -/
theorem PyTz.normalize_absMin (tz : PyTz) (d : AwareDT) :
    (tz.normalize d).absMin = d.absMin := by
  simp [PyTz.normalize, AwareDT.absMin]

/-- A Python datetime: naive (no tzinfo) or aware with its pytz zone. -/
inductive PyDatetime
  | naive (wall : Int)
  | aware (d : AwareDT) (tz : PyTz)

/-- Outcome of one `GeoNames.geocode` call: a location (abstract id), a `None`
result, or a `GeocoderTimedOut` exception. -/
inductive GeoResult
  | found (loc : Nat)
  | notFound
  | timedOut
  deriving Repr, DecidableEq

/-- The GeoNames geocoder at its interface boundary: `geocode(query)` and
`reverse_timezone(location).pytz_timezone`. -/
structure GeoNames where
  geocode : String → GeoResult
  reverse_timezone : Nat → PyTz

/-- `AllTrackerSheet.get_appt_date` (alt_smartsheet.py:104-105):
`date.fromisoformat` of the `Secured Date` cell; a missing or malformed cell
raises (`TypeError`/`ValueError`, both modelled as `valueError`). -/
def get_appt_date (row : Row) : Except PyErr Int :=
  match row.secured_date with
  | some d => .ok d
  | none => .error (.valueError s!"Invalid isoformat string on row #{row.row_number}")

/-- `AllTrackerSheet.get_appt_datetime` (alt_smartsheet.py:107-131): combine the
ISO date with the `HHMM`-encoded time; when a geolocator is present, geocode the
postal code (falling back to `"{city}, {state}"`) and localize through the
reverse-geocoded pytz timezone; otherwise the result stays naive. -/
def get_appt_datetime (geolocator : Option GeoNames) (row : Row) : Except PyErr PyDatetime := do
  let d ← get_appt_date row
  let appt_time := row.secured_time
  let hour := appt_time / 100
  let minute := appt_time % 100
  if 23 < hour ∨ 59 < minute then
    .error (.valueError "hour must be in 0..23 and minute in 0..59")
  else
    let wall : Int := d * 1440 + hour * 60 + minute
    match geolocator with
    | none => .ok (.naive wall)
    | some g => do
      let postal_code ← get_postal_code row.zip_code
      match g.geocode postal_code with
      | .timedOut => .error (.valueError "Error from geocode: timed out")
      | .found loc => .ok (.aware (localize (g.reverse_timezone loc) wall) (g.reverse_timezone loc))
      | .notFound =>
        let city := row.city_cell.getD "None"
        let state := row.state_cell.getD "None"
        match g.geocode s!"{city}, {state}" with
        | .found loc => .ok (.aware (localize (g.reverse_timezone loc) wall) (g.reverse_timezone loc))
        | .timedOut => .error (.valueError "Error from geocode: timed out")
        | .notFound =>
          .error (.valueError
            s!"Error geocoding from zip ({postal_code}) and city, state ({city}, {state}) on row #{row.row_number}.")

/-- `AllTrackerSheet.get_appt_full_address` (alt_smartsheet.py:133-147): missing
address/city/state coerce to the empty string; the address is stripped, commas
removed and newlines mapped to spaces; all four parts joined with `", "`. -/
def get_appt_full_address (row : Row) : Except PyErr String := do
  let address := (mapChar '\n' ' ' (removeChar ',' (trimChars (row.address_cell.getD "").data))).asString
  let city := pyStrip (row.city_cell.getD "")
  let state := pyStrip (row.state_cell.getD "")
  let postal_code ← get_postal_code row.zip_code
  .ok (joinSep ", " [address, city, state, postal_code])

/-- `AllTrackerSheet.get_tech_name` (alt_smartsheet.py:149-150). -/
def get_tech_name (row : Row) : String := row.tech_name_cell

/-- `AllTrackerSheet.get_site_id` (alt_smartsheet.py:169-170). -/
def get_site_id (row : Row) : String := row.site_id_cell

/-- `AllTrackerSheet.get_tech_contact` (alt_smartsheet.py:152-167): the
phonenumbers library (region-aware parse followed by the validity check) is the
oracle `phoneLib`; both failure modes raise `ValueError`. -/
def get_tech_contact (phoneLib : String → Option Phone) (row : Row) : Except PyErr Phone :=
  match phoneLib row.tech_phone_cell with
  | some p => .ok p
  | none => .error (.valueError s!"Error parsing number on row #{row.row_number}")

/-- `AllTrackerSheet.get_work_order_num` (alt_smartsheet.py:172-178): int-cast
when possible, the raw string otherwise, `''` for a `None` cell. -/
def get_work_order_num (row : Row) : String :=
  match row.comcast_po with
  | none => ""
  | some s =>
    match pyInt? s with
    | some n => toString n
    | none => s

/-- The value bound to `TechDetails.appt_datetime`: a real datetime, or the
GeoNames geolocator object that every `check_in.py` call site passes as the
`datetime_` override argument of `get_tech_details`. -/
inductive ApptVal
  | dt (d : PyDatetime)
  | geoObj

/-- `alt_smartsheet.TechDetails` (alt_smartsheet.py:15-23). -/
structure TechDetails where
  site_id : String
  tech_name : String
  tech_contact : Phone
  address : String
  appt_datetime : ApptVal
  work_market_num : String
  work_order_num : String

/-- `AllTrackerSheet.get_tech_details` (alt_smartsheet.py:196-205): build the
`TechDetails` record, evaluating the fields in Python keyword-argument order;
`appt_datetime` is the `datetime_` argument when one is passed, otherwise the
value computed by `get_appt_datetime`. -/
def get_tech_details (phoneLib : String → Option Phone) (geolocator : Option GeoNames)
    (row : Row) (datetime_ : Option ApptVal) : Except PyErr TechDetails := do
  let site_id := get_site_id row
  let tech_name := get_tech_name row
  let tech_contact ← get_tech_contact phoneLib row
  let address ← get_appt_full_address row
  let appt_datetime ← match datetime_ with
    | none => (get_appt_datetime geolocator row).map ApptVal.dt
    | some v => .ok v
  let work_market_num ← get_work_market_num_id row.work_market_cell
  .ok { site_id := site_id, tech_name := tech_name, tech_contact := tech_contact,
        address := address, appt_datetime := appt_datetime,
        work_market_num := work_market_num, work_order_num := get_work_order_num row }

/-- One buffered checkbox change (`AltSheet.set_checkbox` builds a `Cell` for a
row update; the dict keyed by row id groups cells per row — modelled as the
equivalent append-only list of cell updates). -/
structure CellUpdate where
  row_id : Nat
  column : String
  value : Bool
  deriving Repr, DecidableEq

/-- State of the record source and observable effects: current rows, the
report's buffered row updates, the batches committed to the record source, the
discussion notes created, and the successfully delivered SMS messages. -/
structure World where
  report_rows : List Row
  row_updates : List CellUpdate
  persisted : List (List CellUpdate)
  discussions : List (Nat × Nat × String)
  sent : List (String × String)
  deriving Repr, DecidableEq

/-- Apply one checkbox update to the record source. -/
def applyUpdate (rows : List Row) (u : CellUpdate) : List Row :=
  rows.map (fun r =>
    if r.row_id = u.row_id then
      if u.column = "24 HR Pre-call" then { r with twenty_four_hr_precall := u.value }
      else if u.column = "1 HR Pre-call" then { r with one_hr_precall := u.value }
      else r
    else r)

def applyUpdates (rows : List Row) (us : List CellUpdate) : List Row :=
  us.foldl applyUpdate rows

/-- Modelled from the spec: `smartsheet_controller.update_report_rows(report)`
is called from `check_in.py:143` and `CheckinAPI.py:141` but no such method
exists in `src/` (`SmartsheetController` only has `update_rows`); spec §6's
`flush(buffered_changes)` commits all buffered changes in one batch to the
record source. -/
def update_report_rows (buffer : List CellUpdate) (w : World) : World :=
  { w with report_rows := applyUpdates w.report_rows buffer,
           persisted := w.persisted ++ [buffer] }

/-- SMS transport at its interface boundary (`sms.py`): `deliver to msg` is the
provider call, returning a receipt or a provider-reported failure (raised as
Python `RuntimeError` by `TextbeltController.send_text`). -/
structure Sms where
  admin_num : Option String
  deliver : String → String → Except String String

/-- `if sms_controller.admin_num: sms_controller.send_text(admin, error_msg)` —
the admin-notification idiom of the batch passes; a transport failure here is
not caught by the callers and aborts the pass. -/
def notify_admin (sms : Sms) (error_msg : String) (w : World) : Except (PyErr × World) World :=
  match sms.admin_num with
  | none => .ok w
  | some a =>
    match sms.deliver a error_msg with
    | .ok _ => .ok { w with sent := w.sent ++ [(a, error_msg)] }
    | .error e => .error (.runtimeError e, w)

/-- The dict returned by `send_1_hour_check` on success. -/
structure SendInfo where
  to_num : String
  tech_name : String
  work_market_num : String
  site_id : String
  deriving Repr, DecidableEq

/-- `check_in.send_1_hour_check` (check_in.py:128-149): send the reminder; on a
transport `RuntimeError` log and return (no state change); on success set the
`1 HR Pre-call` checkbox on the row and flush the report's buffered updates. -/
def send_1_hour_check (sms : Sms) (td : TechDetails) (row : Row) (w : World) :
    Option SendInfo × World :=
  let send_to := td.tech_contact.e164
  let msg := s!"Reminder that your appointment (ID {td.site_id}) at {td.address} is in one hour!"
  match sms.deliver send_to msg with
  | .error _ => (none, w)
  | .ok _ =>
    let w₁ := { w with sent := w.sent ++ [(send_to, msg)] }
    let w₂ := { w₁ with row_updates := w₁.row_updates ++ [⟨row.row_id, "1 HR Pre-call", true⟩] }
    let w₃ := update_report_rows w₂.row_updates w₂
    (some ⟨send_to, td.tech_name, td.work_market_num, td.site_id⟩, w₃)

/-- The aware-datetime window comparison `now < tech_details.appt_datetime < until`
(check_in.py:122), where `now` and `until` are UTC-aware: comparing an aware
datetime with the erroneously bound geolocator object (or with a naive
datetime) raises `TypeError`. -/
def apptLtWindow (now until_ : Int) : ApptVal → Except PyErr Bool
  | .geoObj =>
    .error (.typeError "unsupported comparison between instances of datetime and GeoNames")
  | .dt (.naive _) =>
    .error (.typeError "cannot compare offset-naive and offset-aware datetimes")
  | .dt (.aware d _) => .ok (decide (now < d.absMin) && decide (d.absMin < until_))

/-- `tech_details.appt_datetime.tzinfo.normalize(tech_details.appt_datetime -
timedelta(hours=1))` (check_in.py:123 and :174): on an aware datetime this is
wall-clock subtraction re-localized through the zone; on the geolocator object
`.tzinfo` raises `AttributeError`; on a naive datetime `.tzinfo` is `None` and
`.normalize` raises `AttributeError`. -/
def tz_normalize_minus_hour : ApptVal → Except PyErr AwareDT
  | .geoObj => .error (.attributeError "GeoNames object has no attribute tzinfo")
  | .dt (.naive _) => .error (.attributeError "NoneType object has no attribute normalize")
  | .dt (.aware d tz) => .ok (tz.normalize ⟨d.wall - 60, d.off⟩)

/-- `check_in.OneHRPrecall` (check_in.py:99-102). -/
structure OneHR where
  sched_time : AwareDT
  tech_details : TechDetails
  row : Row

/-- Row loop of `check_in.get_1_hour_checks` (check_in.py:110-126): skip rows
whose `1 HR Pre-call` checkbox is set; normalization failures (`ValueError`)
notify the admin and skip the row; for the rest, the window comparison raises
`TypeError` because `get_tech_details(row, geolocator)` binds the geolocator as
the `datetime_` override, so `appt_datetime` is the geolocator object. -/
def get_1_hour_checks_go (phoneLib : String → Option Phone) (sms : Sms)
    (now until_ : Int) : List Row → World → Except (PyErr × World) (List OneHR × World)
  | [], w => .ok ([], w)
  | row :: rest, w =>
    if row.one_hr_precall then
      get_1_hour_checks_go phoneLib sms now until_ rest w
    else
      match get_tech_details phoneLib none row (some .geoObj) with
      | .error (.valueError e) =>
        let error_msg :=
          s!"Could not schedule 1 hour pre-text while parsing row #{row.row_number}. Error: \"{e}\""
        (match notify_admin sms error_msg w with
        | .error ew => .error ew
        | .ok w₁ => get_1_hour_checks_go phoneLib sms now until_ rest w₁)
      | .error e => .error (e, w)
      | .ok td =>
        match apptLtWindow now until_ td.appt_datetime with
        | .error e => .error (e, w)
        | .ok inWindow =>
          if inWindow then
            match tz_normalize_minus_hour td.appt_datetime with
            | .error e => .error (e, w)
            | .ok sched =>
              match get_1_hour_checks_go phoneLib sms now until_ rest w with
              | .error ew => .error ew
              | .ok (l, w₁) => .ok (⟨sched, td, row⟩ :: l, w₁)
          else
            get_1_hour_checks_go phoneLib sms now until_ rest w

/-- `check_in.get_1_hour_checks` (check_in.py:105-126); `until` defaults to
`now + 24h`; the report's rows are read through the spec-modelled `get_rows`
(spec §6 `list_rows`), i.e. the current rows of the record source. -/
def get_1_hour_checks (phoneLib : String → Option Phone) (sms : Sms)
    (now : Int) (until_ : Option Int) (w : World) : Except (PyErr × World) (List OneHR × World) :=
  get_1_hour_checks_go phoneLib sms now (until_.getD (now + 1440)) w.report_rows w

/-- One pending one-shot job of the APScheduler registry, as created by
`scheduler.add_job(send_1_hour_check, trigger=date, run_date=sched_time,
args=[tech_details, ...])`. -/
structure Job where
  run_date : AwareDT
  tech_details : TechDetails
  row : Row

/-- APScheduler's pending-jobs registry. -/
structure Scheduler where
  jobs : List Job

def Scheduler.add_job (s : Scheduler) (j : Job) : Scheduler := ⟨s.jobs ++ [j]⟩

/-- The scheduling loop of `check_in.schedule_1_hour_checks`
(check_in.py:160-162) over an already-computed due set: one `add_job` per item,
unconditionally — no cross-reference against pending jobs. -/
def schedule_due_set (scheduler : Scheduler) (checks : List OneHR) : Scheduler :=
  checks.foldl (fun sc c => sc.add_job ⟨c.sched_time, c.tech_details, c.row⟩) scheduler

/-- `check_in.schedule_1_hour_checks` (check_in.py:151-162): compute the due
set, then register one job per item. -/
def schedule_1_hour_checks (phoneLib : String → Option Phone) (sms : Sms)
    (now : Int) (until_ : Option Int) (scheduler : Scheduler) (w : World) :
    Except (PyErr × World) (Scheduler × World) :=
  match get_1_hour_checks phoneLib sms now until_ w with
  | .error ew => .error ew
  | .ok (checks, w₁) => .ok (schedule_due_set scheduler checks, w₁)

/-- The `next(row for row in report.get_rows() if get_work_market_num_id(row) == id)`
idiom: first row whose work-market number equals `id`; a number that fails to
parse raises out of the generator. -/
def find_row_by_wm : List Row → String → Except PyErr (Option Row)
  | [], _ => .ok none
  | r :: rs, id => do
    let wm ← get_work_market_num_id r.work_market_cell
    if wm = id then .ok (some r) else find_row_by_wm rs id

/-- `check_in.schedule_1_hour_check` (check_in.py:164-177), the on-demand
single-record variant: `StopIteration` when no row matches; the already-done
guard consults the `24 HR Pre-call` checkbox (source line 171) while raising
"1HR Pre-call is already checked."; the fire time is `appt - 1h` re-localized,
and a fire time before `now` raises `ValueError`. -/
def schedule_1_hour_check (phoneLib : String → Option Phone) (id : String)
    (now : Int) (rows : List Row) : Except PyErr Job := do
  let row? ← find_row_by_wm rows id
  match row? with
  | none => .error .stopIteration
  | some row =>
    if row.twenty_four_hr_precall then
      .error (.valueError "1HR Pre-call is already checked.")
    else do
      let td ← get_tech_details phoneLib none row (some .geoObj)
      let sched ← tz_normalize_minus_hour td.appt_datetime
      if sched.absMin < now then
        .error (.valueError "Cannot schedule in the past")
      else
        .ok ⟨sched, td, row⟩

/-- `CheckinAPI.schedule_1hr` (CheckinAPI.py:210-223), the `/1hr/{id}/schedule`
endpoint: reject when a pending job already carries this work-market number
(the `JobView.wm_num` cross-reference), otherwise delegate to
`schedule_1_hour_check` and register the job; `StopIteration` maps to 404 and
`ValueError` to 400, anything else escapes as an unhandled server error. -/
def schedule_1hr_endpoint (phoneLib : String → Option Phone) (id : String)
    (now : Int) (rows : List Row) (scheduler : Scheduler) : Except PyErr Scheduler :=
  if scheduler.jobs.any (fun j => j.tech_details.work_market_num == id) then
    .error (.httpException 400 "1 hour pre-text is already scheduled.")
  else
    match schedule_1_hour_check phoneLib id now rows with
    | .ok job => .ok (scheduler.add_job job)
    | .error .stopIteration =>
      .error (.httpException 404 s!"Cannot find record with work market #{id}.")
    | .error (.valueError e) =>
      .error (.httpException 400 s!"Could not schedule 1 hour pre-text. Error: {e}.")
    | .error (.runtimeError _) =>
      .error (.httpException 500 "Unexpected error from sending sms.")
    | .error e => .error e

/-- `date.isoformat()` of an epoch-day count (abstract rendering). -/
def isoDate (d : Int) : String := toString d

def pad2 (n : Int) : String := if n < 10 then "0" ++ toString n else toString n

/-- `time.strftime('%H%M')` of a minute-of-day count. -/
def fmtHHMM (mins : Int) : String := pad2 (Int.ediv mins 60) ++ pad2 (Int.emod mins 60)

/-- Local wall-clock minutes of a Python datetime (what `.date()`/`.time()`
read). -/
def PyDatetime.wallMin : PyDatetime → Int
  | .naive w => w
  | .aware d _ => d.wall

/-- `.time()` as minute-of-day; `AttributeError` on the geolocator object. -/
def ApptVal.timeOf : ApptVal → Except PyErr Int
  | .geoObj => .error (.attributeError "GeoNames object has no attribute time")
  | .dt d => .ok (Int.emod d.wallMin 1440)

/-- `.date()` as an epoch-day count; `AttributeError` on the geolocator object. -/
def ApptVal.dateOf : ApptVal → Except PyErr Int
  | .geoObj => .error (.attributeError "GeoNames object has no attribute date")
  | .dt d => .ok (Int.ediv d.wallMin 1440)

/-- `.strftime(DATETIME_SMS_FORMAT)` (abstract rendering); `AttributeError` on
the geolocator object. -/
def ApptVal.strftimeSms : ApptVal → Except PyErr String
  | .geoObj => .error (.attributeError "GeoNames object has no attribute strftime")
  | .dt d => .ok (isoDate (Int.ediv d.wallMin 1440) ++ " @ " ++ fmtHHMM (Int.emod d.wallMin 1440))

/-- `check_in.build_form` (check_in.py:19-37): the URL-encoded field map, keyed
by the fixed field names, appended as a query string.  The values are evaluated
in dict-literal order, so `appt_datetime.date()` is reached first; the
percent-encoding itself and the Textbelt `%23`→`%2523` double-encoding
workaround live in the external urllib call and are modelled as plain
`key=value` joining. -/
def build_form (url : String) (td : TechDetails) : Except PyErr String := do
  let dateStr := isoDate (← td.appt_datetime.dateOf)
  let timeStr := fmtHHMM (← td.appt_datetime.timeOf)
  let params := [("Tech Name", td.tech_name), ("Date", dateStr), ("Time", timeStr),
    ("Location", td.address), ("Site ID", td.site_id), ("Work Order", td.work_order_num),
    ("Work Number - Please don\x27t change", td.work_market_num)]
  .ok (url ++ "?" ++ joinSep "&" (params.map (fun p => p.1 ++ "=" ++ p.2)))

/-- Row loop of `check_in.send_24_hour_checks` (check_in.py:43-72): skip rows
whose `24 HR Pre-call` checkbox is set; date-parse failures and normalization
`ValueError`s notify the admin and skip the row; for a row whose appointment
date is tomorrow, `build_form` is reached with `appt_datetime` bound to the
geolocator object (the `datetime_` override), so the pass aborts with
`AttributeError`.  `resp` tracks the Python local of the same name: it is only
bound by a successful send, and `logger.debug(resp)` after a caught transport
failure raises `NameError` when it was never bound. -/
def send_24_hour_checks_go (phoneLib : String → Option Phone) (form_url : String) (sms : Sms)
    (tomorrow : Int) : List Row → Option String → World → World × Option PyErr
  | [], _, w => (w, none)
  | row :: rest, resp, w =>
    if row.twenty_four_hr_precall then
      send_24_hour_checks_go phoneLib form_url sms tomorrow rest resp w
    else
      match get_appt_date row with
      | .error (.valueError e) =>
        let error_msg := s!"Error parsing date for row #{row.row_number}: \"{e}\""
        (match notify_admin sms error_msg w with
         | .error (e₁, w₁) => (w₁, some e₁)
         | .ok w₁ => send_24_hour_checks_go phoneLib form_url sms tomorrow rest resp w₁)
      | .error e => (w, some e)
      | .ok appt_date =>
        if tomorrow = appt_date then
          match get_tech_details phoneLib none row (some .geoObj) with
          | .error (.valueError e) =>
            let error_msg :=
              s!"Could not schedule 24 hour pre-text while parsing row #{row.row_number}: \"{e}\""
            (match notify_admin sms error_msg w with
             | .error (e₁, w₁) => (w₁, some e₁)
             | .ok w₁ => send_24_hour_checks_go phoneLib form_url sms tomorrow rest resp w₁)
          | .error e => (w, some e)
          | .ok td =>
            match build_form form_url td with
            | .error e => (w, some e)
            | .ok url =>
              let send_to := td.tech_contact.e164
              match td.appt_datetime.strftimeSms with
              | .error e => (w, some e)
              | .ok whenStr =>
                let msg := "Please confirm the details of your appointment tomorrow at "
                  ++ whenStr ++ ": " ++ url
                match sms.deliver send_to msg with
                | .ok receipt =>
                  send_24_hour_checks_go phoneLib form_url sms tomorrow rest (some receipt)
                    { w with sent := w.sent ++ [(send_to, msg)] }
                | .error _ =>
                  match resp with
                  | some _ => send_24_hour_checks_go phoneLib form_url sms tomorrow rest resp w
                  | none => (w, some (.nameError "name resp is not defined"))
        else
          send_24_hour_checks_go phoneLib form_url sms tomorrow rest resp w

/-- `check_in.send_24_hour_checks` (check_in.py:39-72); `tomorrow` is
`date.today() + timedelta(days=1)` passed in as an epoch-day count; rows are
read through the spec-modelled `get_rows`. -/
def send_24_hour_checks (phoneLib : String → Option Phone) (form_url : String) (sms : Sms)
    (tomorrow : Int) (w : World) : World × Option PyErr :=
  send_24_hour_checks_go phoneLib form_url sms tomorrow w.report_rows none w

/-- The confirmation-form submission body (`CheckinAPI.Form`,
CheckinAPI.py:95-102); `date` is pydantic-parsed to an epoch-day count. -/
structure Form where
  tech_name : String
  date : Int
  time : String
  location : String
  site_id : String
  work_market_num : String
  comment : Option String
  deriving Repr, DecidableEq

/-- `datetime.strptime(form.time, TIME_FORM_FORMAT).time()` with
`TIME_FORM_FORMAT = '%H%M'`: four digits `HHMM` with hour ≤ 23 and
minute ≤ 59 (the shape `build_form` itself emits). -/
def parseTimeHHMM (s : String) : Option Int :=
  match s.data with
  | [a, b, c, d] =>
    if a.isDigit && b.isDigit && c.isDigit && d.isDigit then
      let hh := (a.toNat - '0'.toNat) * 10 + (b.toNat - '0'.toNat)
      let mm := (c.toNat - '0'.toNat) * 10 + (d.toNat - '0'.toNat)
      if hh ≤ 23 && mm ≤ 59 then some ((hh * 60 + mm : Nat) : Int) else none
    else none
  | _ => none

/-- `CheckinAPI.submit_form` (CheckinAPI.py:105-155): re-fetch the report (its
geolocator is `None`, so the normalized appointment datetime is naive), find
the row by work-market number (404 if absent), short-circuit with "already
complete" when the `24 HR Pre-call` checkbox is set; otherwise compare each
submitted field against the normalized record, collecting correction comments;
with no discrepancy set the checkbox and flush; append any additional tech
comment; when any comment exists, create one discussion note on the row
(pinging the admin email when configured); finally return the fixed success
message. -/
def submit_form (phoneLib : String → Option Phone) (admin_email : Option String)
    (form : Form) (w : World) : Except PyErr (String × World) := do
  let row? ← find_row_by_wm w.report_rows form.work_market_num
  match row? with
  | none =>
    .error (.httpException 404 s!"Canont find row with Work Market # of {form.work_market_num}.")
  | some row =>
    if row.twenty_four_hr_precall then
      .ok ("Form is already complete. Ignoring any further requests.", w)
    else do
      let td ← get_tech_details phoneLib none row none
      let c₁ := if td.tech_name ≠ form.tech_name
        then [s!"Tech needs to be changed to {form.tech_name}."] else []
      let c₂ := if td.site_id ≠ form.site_id
        then [s!"Site ID needs to be changed to {form.site_id}."] else []
      let parsed_time ← (match parseTimeHHMM form.time with
        | some t => Except.ok t
        | none => Except.error (.valueError s!"time data {form.time} does not match format %H%M"))
      let apptTime ← td.appt_datetime.timeOf
      let c₃ := if apptTime ≠ parsed_time
        then [s!"Appointment time needs to be changed to {fmtHHMM parsed_time}."] else []
      let apptDate ← td.appt_datetime.dateOf
      let c₄ := if apptDate ≠ form.date
        then [s!"Appointment date needs to be changed to {isoDate form.date}."] else []
      let c₅ := if td.address ≠ form.location
        then [s!"Address needs to be changed to {form.location}."] else []
      let comments := c₁ ++ c₂ ++ c₃ ++ c₄ ++ c₅
      let w₁ := if comments.isEmpty
        then update_report_rows [⟨row.row_id, "24 HR Pre-call", true⟩] w else w
      let comments₂ := comments ++ (match form.comment with
        | some c => [s!"Additional comment from tech: {c}"]
        | none => [])
      let w₂ := if comments₂.isEmpty then w₁ else
        let comments₃ := comments₂ ++ (match admin_email with
          | some a => [s!"@{a}"]
          | none => [])
        { w₁ with discussions :=
            w₁.discussions ++ [(row.sheet_id, row.row_id, joinSep "\n" comments₃)] }
      .ok (s!"24 hour pre-call complete for {form.work_market_num}", w₂)

/-! ## Concrete fixtures for witnesses and counterexamples -/

/-- Phone oracle for concrete runs: accepts the single valid US test number. -/
def phoneLibC : String → Option Phone :=
  fun s => if s = "5551234567" then some ⟨"+15551234567"⟩ else none

/-- A valid appointment row used by concrete runs. -/
def rowC : Row :=
  { row_number := 1, row_id := 11, sheet_id := 21,
    one_hr_precall := false, twenty_four_hr_precall := false,
    zip_code := "07001",
    secured_date := some 20000,
    secured_time := 1330,
    address_cell := some "1 Main St", city_cell := some "Avenel", state_cell := some "NJ",
    tech_name_cell := "Pat Doe", tech_phone_cell := "5551234567",
    site_id_cell := "SITE1", comcast_po := some "42",
    work_market_cell := .str "123" }

example : (get_tech_details phoneLibC none rowC none).isOk = true := by decide
example : (get_tech_details phoneLibC none rowC (some .geoObj)).isOk = true := by decide

example : get_postal_code "7" = .ok "00007" := by decide
example : get_postal_code "12345-6789" = .ok "12345-6789" := by decide
example : get_postal_code "123456789" = .ok "123456789" := by decide
example : get_postal_code "1234-56789" = .error (.valueError "Unrecognized format for zip 1234-56789.") := by decide
example : get_work_market_num_id (.str "abc/123") = .ok "123" := by decide
example : get_work_market_num_id (.str "abc") =
    .error (.valueError "Work market number ran into an uncaught exception case") := by decide
example : get_work_market_num_id .none = .ok "" := by decide
example : pyInt? " 42 " = some 42 := by decide
example : pyInt? "" = none := by decide
example : pyInt? "-7" = some (-7) := by decide

/-! ## Claim C5 — postal code normalization -/

/-- C5 counterexample: the claim says `"123456789"` (9 digits, no hyphen) fails
normalization; in the code `int("123456789")` succeeds, so `get_postal_code`
returns it unchanged rather than raising. -/
theorem C5_counterexample : get_postal_code "123456789" = Except.ok "123456789" := by decide

/-- C5 (amended): `"7"` normalizes to `"00007"` and `"12345-6789"` passes
unchanged; but any integer-convertible input succeeds (zero-padded only when
shorter than 5 digits), so `"123456789"` is returned as-is; only inputs that
are not integer-convertible must match the 5-digits-hyphen-4-digits
10-character ZIP+4 shape or fail with a `ValueError`. -/
theorem C5_postal_code_normalization :
    get_postal_code "7" = Except.ok "00007" ∧
    get_postal_code "12345-6789" = Except.ok "12345-6789" ∧
    get_postal_code "123456789" = Except.ok "123456789" ∧
    (∀ s : String, pyInt? s = none →
      (get_postal_code s = Except.ok s ∧ s.length = 10) ∨
      (∃ e, get_postal_code s = Except.error (PyErr.valueError e))) := by
  refine ⟨by decide, by decide, by decide, ?_⟩
  intro s h
  simp only [get_postal_code, h]
  split
  next => exact Or.inr ⟨_, rfl⟩
  next hlen =>
    split
    next a b =>
      split
      next hab => exact Or.inl ⟨rfl, by omega⟩
      next => exact Or.inr ⟨_, rfl⟩
    next => exact Or.inr ⟨_, rfl⟩

/-- C5 witness: the general clause of `C5_postal_code_normalization`
instantiated at the non-integer-convertible input `"1234-56789"`, which fails
with a `ValueError`. -/
theorem C5_witness :
    pyInt? "1234-56789" = none ∧
    ((get_postal_code "1234-56789" = Except.ok "1234-56789" ∧ ("1234-56789" : String).length = 10) ∨
      (∃ e, get_postal_code "1234-56789" = Except.error (PyErr.valueError e))) :=
  ⟨by decide, C5_postal_code_normalization.2.2.2 "1234-56789" (by decide)⟩

/-! ## Claim C9 — work-market-number parsing during normalization -/

/-- A row whose `WORK MARKET #` cell is missing (`None`). -/
def rowNoneWm : Row := { rowC with work_market_cell := .none }

/-- A row whose `WORK MARKET #` cell parses neither as an integer nor via the
trailing slash segment. -/
def rowBadWm : Row := { rowC with work_market_cell := .str "abc" }

/-- C9 counterexample: the claim says a missing/None work-market value makes
normalization fail with a validation error; in the code the `TypeError` branch
of `get_work_market_num_id` returns `''`, and `get_tech_details` succeeds,
producing a record whose `work_market_num` is the empty string. -/
theorem C9_counterexample :
    get_work_market_num_id WmVal.none = Except.ok "" ∧
    (get_tech_details phoneLibC none rowNoneWm none).isOk = true := by decide

/-- C9 (amended): a non-None work-market value that parses neither as an
integer nor as an integer in the trailing segment of the slash-split string
makes `get_work_market_num_id` — and hence normalization — fail with a
human-readable `ValueError`; a missing/None value instead yields `''` and
normalization can succeed. -/
theorem C9_work_market_num_parse :
    (∀ s : String, pyInt? s = none →
      pyInt? ((splitOnChar '/' s.data).getLastD []).asString = none →
      get_work_market_num_id (WmVal.str s) =
        Except.error (PyErr.valueError "Work market number ran into an uncaught exception case")) ∧
    get_tech_details phoneLibC none rowBadWm none =
      Except.error (PyErr.valueError "Work market number ran into an uncaught exception case") ∧
    get_work_market_num_id WmVal.none = Except.ok "" := by
  refine ⟨?_, rfl, by decide⟩
  intro s h₁ h₂
  simp only [get_work_market_num_id, h₁, h₂]

/-- C9 witness: the general clause of `C9_work_market_num_parse` instantiated
at the unparseable value `"abc"`. -/
theorem C9_witness :
    pyInt? "abc" = none ∧
    get_work_market_num_id (WmVal.str "abc") =
      Except.error (PyErr.valueError "Work market number ran into an uncaught exception case") :=
  ⟨by decide, C9_work_market_num_parse.1 "abc" (by decide) (by decide)⟩

/-! ## Claim C2 — re-invoking the 1-hour scheduling routine -/

/-- A normalized record for concrete scheduling runs. -/
def tdC : TechDetails :=
  { site_id := "SITE1", tech_name := "Pat Doe", tech_contact := ⟨"+15551234567"⟩,
    address := "1 Main St, Avenel, NJ, 07001", appt_datetime := .dt (.naive 0),
    work_market_num := "123", work_order_num := "42" }

/-- A one-item due set for concrete scheduling runs. -/
def oneHrC : OneHR := { sched_time := ⟨0, 0⟩, tech_details := tdC, row := rowC }

/-- C2 counterexample: running the scheduling loop of `schedule_1_hour_checks`
twice on the same one-item due set leaves two pending jobs with work-market
number `"123"` — the claimed at-most-one invariant fails. -/
theorem C2_counterexample :
    ¬ (((schedule_due_set (schedule_due_set ⟨[]⟩ [oneHrC]) [oneHrC]).jobs.map
        (fun j => j.tech_details.work_market_num)).count "123" ≤ 1) := by decide

/-- C2 (amended): `schedule_1_hour_checks` itself performs no pending-job
cross-reference — each invocation unconditionally appends one job per due item,
so re-invocation on the same due set duplicates jobs; the `work_market_num`
cross-reference against pending jobs exists only in the on-demand
`/1hr/{id}/schedule` endpoint, which rejects a request whenever some pending
job already carries that work-market number. -/
theorem C2_schedule_no_dedup :
    (∀ (scheduler : Scheduler) (checks : List OneHR),
      (schedule_due_set scheduler checks).jobs =
        scheduler.jobs ++ checks.map (fun c => ⟨c.sched_time, c.tech_details, c.row⟩)) ∧
    (∀ (phoneLib : String → Option Phone) (id : String) (now : Int) (rows : List Row)
        (scheduler : Scheduler),
      (∃ j ∈ scheduler.jobs, j.tech_details.work_market_num = id) →
      schedule_1hr_endpoint phoneLib id now rows scheduler =
        Except.error (.httpException 400 "1 hour pre-text is already scheduled.")) := by
  constructor
  · intro scheduler checks
    induction checks generalizing scheduler with
    | nil => simp [schedule_due_set]
    | cons c cs ih =>
      have h₁ : schedule_due_set scheduler (c :: cs) =
          schedule_due_set (scheduler.add_job ⟨c.sched_time, c.tech_details, c.row⟩) cs := rfl
      rw [h₁, ih]
      simp [Scheduler.add_job]
  · rintro phoneLib id now rows scheduler ⟨j, hj, hwm⟩
    have hany : scheduler.jobs.any (fun j => j.tech_details.work_market_num == id) = true := by
      simp only [List.any_eq_true]
      exact ⟨j, hj, by simp [hwm]⟩
    simp [schedule_1hr_endpoint, hany]

/-- C2 witness: both clauses of `C2_schedule_no_dedup` at concrete inputs — one
invocation appends exactly the due set's job, and the endpoint rejects an id
already pending. -/
theorem C2_witness :
    (schedule_due_set ⟨[]⟩ [oneHrC]).jobs =
      (Scheduler.mk []).jobs ++ [oneHrC].map (fun c => ⟨c.sched_time, c.tech_details, c.row⟩) ∧
    schedule_1hr_endpoint phoneLibC "123" 0 [] ⟨[⟨⟨0, 0⟩, tdC, rowC⟩]⟩ =
      Except.error (.httpException 400 "1 hour pre-text is already scheduled.") :=
  ⟨C2_schedule_no_dedup.1 ⟨[]⟩ [oneHrC],
   C2_schedule_no_dedup.2 phoneLibC "123" 0 [] ⟨[⟨⟨0, 0⟩, tdC, rowC⟩]⟩
     ⟨⟨⟨0, 0⟩, tdC, rowC⟩, List.mem_singleton.mpr rfl, rfl⟩⟩

/-! ## Claims C1, C3, C4 — the 1-hour selection and scheduling paths -/

/-- SMS controller for concrete runs: an admin number and a transport that
always succeeds. -/
def smsC : Sms := { admin_num := some "+15550000000", deliver := fun _ _ => .ok "ok" }

/-- World for concrete runs: one valid, unchecked appointment row. -/
def worldC : World :=
  { report_rows := [rowC], row_updates := [], persisted := [], discussions := [], sent := [] }

/-- On a genuinely aware appointment datetime the computed fire time denotes
exactly the instant one hour before the appointment, for every timezone — in
particular across any DST transition: wall-clock subtraction keeps the offset,
so it subtracts one true hour of absolute time, and `normalize` only re-derives
the offset without moving the instant. -/
theorem tz_normalize_minus_hour_aware (d : AwareDT) (tz : PyTz) :
    tz_normalize_minus_hour (.dt (.aware d tz)) = .ok (tz.normalize ⟨d.wall - 60, d.off⟩) ∧
    (tz.normalize ⟨d.wall - 60, d.off⟩).absMin = d.absMin - 60 := by
  refine ⟨rfl, ?_⟩
  simp [PyTz.normalize, AwareDT.absMin]
  ring

/-- C1: `rowC` has its 1-hour checkbox clear and normalizes successfully, yet
`get_1_hour_checks` does not select it — it aborts with `TypeError`, because
every `check_in.py` call site passes the geolocator as the `datetime_` override
of `get_tech_details`, so the window comparison `now < appt_datetime < until`
compares an aware datetime against the geolocator object. -/
theorem C1_selection_crashes :
    rowC.one_hr_precall = false ∧
    (get_tech_details phoneLibC none rowC (some .geoObj)).isOk = true ∧
    get_1_hour_checks phoneLibC smsC 0 none worldC =
      Except.error (.typeError "unsupported comparison between instances of datetime and GeoNames",
        worldC) :=
  ⟨rfl, by decide, rfl⟩

/-- C3: the fire-time computation `appt_datetime.tzinfo.normalize(appt_datetime
- timedelta(hours=1))` is never reached with a datetime: on the on-demand path
(`schedule_1_hour_check`) `appt_datetime` is the geolocator object, so
`.tzinfo` raises `AttributeError` before any fire time exists (and the batch
path already aborts at the window comparison, cf. `C1_selection_crashes`). -/
theorem C3_fire_time_never_computed :
    tz_normalize_minus_hour ApptVal.geoObj =
      Except.error (.attributeError "GeoNames object has no attribute tzinfo") ∧
    schedule_1_hour_check phoneLibC "123" 0 [rowC] =
      Except.error (.attributeError "GeoNames object has no attribute tzinfo") :=
  ⟨rfl, rfl⟩

/-- A row whose 1-hour reminder is already done but whose 24-hour checkbox is
clear. -/
def rowDone1hr : Row := { rowC with one_hr_precall := true }

/-- A row whose 24-hour checkbox is set but whose 1-hour checkbox is clear. -/
def rowDone24hr : Row := { rowC with twenty_four_hr_precall := true }

/-- C4: on-demand 1-hour scheduling. (a) For a row whose 1-hour flag is
already true (24-hour flag clear) there is no already-done error — the guard at
check_in.py:171 reads the `24 HR Pre-call` checkbox — and the call instead dies
with `AttributeError` on `.tzinfo`, so the past-due check is unreachable and no
`PastDue` error can ever be produced; (b) conversely a row with the 24-hour
flag set (1-hour flag clear) does produce the "1HR Pre-call is already
checked." error; (c) an unmatched id does fail with the not-found error
(`StopIteration`, mapped to 404 by the endpoint). -/
theorem C4_schedule_one_guards :
    rowDone1hr.one_hr_precall = true ∧
    schedule_1_hour_check phoneLibC "123" 0 [rowDone1hr] =
      Except.error (.attributeError "GeoNames object has no attribute tzinfo") ∧
    rowDone24hr.one_hr_precall = false ∧
    schedule_1_hour_check phoneLibC "123" 0 [rowDone24hr] =
      Except.error (.valueError "1HR Pre-call is already checked.") ∧
    schedule_1_hour_check phoneLibC "404" 0 [rowDone1hr] = Except.error .stopIteration :=
  ⟨rfl, rfl, rfl, rfl, rfl⟩

/-! ## Claim C7 — the 24-hour pass -/

/-- C7: `rowC` qualifies (24-hour checkbox clear, appointment date = tomorrow,
fields normalize), yet `send_24_hour_checks` sends nothing at all: the pass
aborts with `AttributeError` inside `build_form`, because `appt_datetime` is
the geolocator object (bound through the `datetime_` override) and has no
`.date()`.  The state is untouched only because the crash precedes every send
and write. -/
theorem C7_pass_crashes :
    rowC.twenty_four_hr_precall = false ∧
    get_appt_date rowC = Except.ok 20000 ∧
    (get_tech_details phoneLibC none rowC (some .geoObj)).isOk = true ∧
    send_24_hour_checks phoneLibC "https://n8n.example/wf" smsC 20000 worldC =
      (worldC, some (.attributeError "GeoNames object has no attribute date")) ∧
    (send_24_hour_checks phoneLibC "https://n8n.example/wf" smsC 20000 worldC).1.sent = [] :=
  ⟨rfl, rfl, by decide, rfl, rfl⟩

/-! ## Claim C6 — firing a 1-hour job -/

/-- C6: when a 1-hour job fires, a successful delivery appends the
`1 HR Pre-call := true` cell update for the row to the report buffer and
flushes the buffer to the record source (the batch containing the update is
persisted and the row state is updated), and the delivered reminder is the only
new message; a transport failure (`RuntimeError` from the provider) leaves the
world exactly unchanged — no flag update, no write-back, no sent message — and
this function registers no new job either way (it has no access to the
scheduler). -/
theorem C6_send_1_hour_check_effects (sms : Sms) (td : TechDetails) (row : Row) (w : World) :
    (∀ r, sms.deliver td.tech_contact.e164
        s!"Reminder that your appointment (ID {td.site_id}) at {td.address} is in one hour!" =
          .ok r →
      send_1_hour_check sms td row w =
        (some ⟨td.tech_contact.e164, td.tech_name, td.work_market_num, td.site_id⟩,
         { report_rows :=
             applyUpdates w.report_rows (w.row_updates ++ [⟨row.row_id, "1 HR Pre-call", true⟩]),
           row_updates := w.row_updates ++ [⟨row.row_id, "1 HR Pre-call", true⟩],
           persisted := w.persisted ++ [w.row_updates ++ [⟨row.row_id, "1 HR Pre-call", true⟩]],
           discussions := w.discussions,
           sent := w.sent ++ [(td.tech_contact.e164,
             s!"Reminder that your appointment (ID {td.site_id}) at {td.address} is in one hour!")] })) ∧
    (∀ e, sms.deliver td.tech_contact.e164
        s!"Reminder that your appointment (ID {td.site_id}) at {td.address} is in one hour!" =
          .error e →
      send_1_hour_check sms td row w = (none, w)) := by
  constructor
  · intro r h
    simp [send_1_hour_check, h, update_report_rows]
  · intro e h
    simp [send_1_hour_check, h]

/-- C6 witness: `C6_send_1_hour_check_effects` at the concrete always-succeeding
transport. -/
theorem C6_witness :
    send_1_hour_check smsC tdC rowC worldC =
      (some ⟨tdC.tech_contact.e164, tdC.tech_name, tdC.work_market_num, tdC.site_id⟩,
       { report_rows :=
           applyUpdates worldC.report_rows
             (worldC.row_updates ++ [⟨rowC.row_id, "1 HR Pre-call", true⟩]),
         row_updates := worldC.row_updates ++ [⟨rowC.row_id, "1 HR Pre-call", true⟩],
         persisted := worldC.persisted ++ [worldC.row_updates ++ [⟨rowC.row_id, "1 HR Pre-call", true⟩]],
         discussions := worldC.discussions,
         sent := worldC.sent ++ [(tdC.tech_contact.e164,
           s!"Reminder that your appointment (ID {tdC.site_id}) at {tdC.address} is in one hour!")] }) :=
  (C6_send_1_hour_check_effects smsC tdC rowC worldC).1 "ok" rfl

/-- `do`-bind on `Except` reduces on a success value. -/
theorem except_bind_ok {ε α β : Type} (a : α) (f : α → Except ε β) :
    (Except.ok a : Except ε α) >>= f = f a := rfl

/-- `do`-bind on `Except` propagates an error. -/
theorem except_bind_error {ε α β : Type} (e : ε) (f : α → Except ε β) :
    (Except.error e : Except ε α) >>= f = Except.error e := rfl

/-! ## Claims C8 and C10 — confirmation-form submission -/

/-- C8: a confirmation submission whose row is found, whose 24-hour flag is
false and whose every submitted field (tech name, site id, time, date,
location) matches the normalized record — with no additional tech comment —
sets the 24-hour flag and persists exactly that write-back, generates no
discussion note, and returns "24 hour pre-call complete for {id}"; an
identical second submission then finds the flag set, returns the
"already complete" response, and performs no further writes. -/
theorem C8_submit_form_roundtrip (phoneLib : String → Option Phone)
    (admin_email : Option String) (form : Form) (w : World) (r : Row) (td : TechDetails)
    (tmin : Int)
    (hrows : w.report_rows = [r])
    (hwm : get_work_market_num_id r.work_market_cell = Except.ok form.work_market_num)
    (hflag : r.twenty_four_hr_precall = false)
    (htd : get_tech_details phoneLib none r none = Except.ok td)
    (hname : td.tech_name = form.tech_name)
    (hsite : td.site_id = form.site_id)
    (hparse : parseTimeHHMM form.time = some tmin)
    (htime : td.appt_datetime.timeOf = Except.ok tmin)
    (hdate : td.appt_datetime.dateOf = Except.ok form.date)
    (hloc : td.address = form.location)
    (hcomment : form.comment = none) :
    submit_form phoneLib admin_email form w =
      Except.ok (s!"24 hour pre-call complete for {form.work_market_num}",
        update_report_rows [⟨r.row_id, "24 HR Pre-call", true⟩] w) ∧
    (update_report_rows [⟨r.row_id, "24 HR Pre-call", true⟩] w).discussions = w.discussions ∧
    (update_report_rows [⟨r.row_id, "24 HR Pre-call", true⟩] w).persisted =
      w.persisted ++ [[⟨r.row_id, "24 HR Pre-call", true⟩]] ∧
    submit_form phoneLib admin_email form
        (update_report_rows [⟨r.row_id, "24 HR Pre-call", true⟩] w) =
      Except.ok ("Form is already complete. Ignoring any further requests.",
        update_report_rows [⟨r.row_id, "24 HR Pre-call", true⟩] w) := by
  have hfind : find_row_by_wm w.report_rows form.work_market_num = Except.ok (some r) := by
    rw [hrows]
    simp [find_row_by_wm, hwm, except_bind_ok]
  refine ⟨?_, by simp [update_report_rows], by simp [update_report_rows], ?_⟩
  · simp [submit_form, hfind, hflag, htd, hname, hsite, hparse, htime, hdate, hloc,
      hcomment, except_bind_ok, update_report_rows]
  · have hrows₁ : (update_report_rows [⟨r.row_id, "24 HR Pre-call", true⟩] w).report_rows =
        [{ r with twenty_four_hr_precall := true }] := by
      simp [update_report_rows, applyUpdates, applyUpdate, hrows]
    have hfind₁ : find_row_by_wm
        (update_report_rows [⟨r.row_id, "24 HR Pre-call", true⟩] w).report_rows
        form.work_market_num = Except.ok (some { r with twenty_four_hr_precall := true }) := by
      rw [hrows₁]
      simp [find_row_by_wm, hwm, except_bind_ok]
    simp [submit_form, hfind₁, except_bind_ok]

/-- The record rowC normalizes to, with a naive appointment datetime (the
report fetched by `submit_form` has no geolocator). -/
def td0 : TechDetails :=
  { site_id := "SITE1", tech_name := "Pat Doe", tech_contact := ⟨"+15551234567"⟩,
    address := "1 Main St, Avenel, NJ, 07001",
    appt_datetime := .dt (.naive 28800810), work_market_num := "123", work_order_num := "42" }

/-- A confirmation submission matching rowC's normalized record exactly. -/
def formC : Form :=
  { tech_name := "Pat Doe", date := 20000, time := "1330",
    location := "1 Main St, Avenel, NJ, 07001",
    site_id := "SITE1", work_market_num := "123", comment := none }

/-- C8 witness: the round trip on the concrete row/form pair. -/
theorem C8_witness :
    submit_form phoneLibC none formC worldC =
      Except.ok (s!"24 hour pre-call complete for {formC.work_market_num}",
        update_report_rows [⟨rowC.row_id, "24 HR Pre-call", true⟩] worldC) ∧
    submit_form phoneLibC none formC
        (update_report_rows [⟨rowC.row_id, "24 HR Pre-call", true⟩] worldC) =
      Except.ok ("Form is already complete. Ignoring any further requests.",
        update_report_rows [⟨rowC.row_id, "24 HR Pre-call", true⟩] worldC) :=
  ⟨(C8_submit_form_roundtrip phoneLibC none formC worldC rowC td0 810
      rfl rfl rfl rfl rfl rfl rfl rfl rfl rfl rfl).1,
   (C8_submit_form_roundtrip phoneLibC none formC worldC rowC td0 810
      rfl rfl rfl rfl rfl rfl rfl rfl rfl rfl rfl).2.2.2⟩

/-- C10: a found submission with the flag false and one mismatching field (the
tech name) does not set the 24-hour flag and persists nothing, but creates one
discussion note carrying the correction — and still returns the very same
success message "24 hour pre-call complete for {id}" as the no-discrepancy
case, so the caller cannot tell completion from correction-recorded from the
response. -/
theorem C10_submit_form_mismatch_same_message (phoneLib : String → Option Phone)
    (form : Form) (w : World) (r : Row) (td : TechDetails) (tmin : Int)
    (hrows : w.report_rows = [r])
    (hwm : get_work_market_num_id r.work_market_cell = Except.ok form.work_market_num)
    (hflag : r.twenty_four_hr_precall = false)
    (htd : get_tech_details phoneLib none r none = Except.ok td)
    (hname : td.tech_name ≠ form.tech_name)
    (hsite : td.site_id = form.site_id)
    (hparse : parseTimeHHMM form.time = some tmin)
    (htime : td.appt_datetime.timeOf = Except.ok tmin)
    (hdate : td.appt_datetime.dateOf = Except.ok form.date)
    (hloc : td.address = form.location)
    (hcomment : form.comment = none) :
    submit_form phoneLib none form w =
      Except.ok (s!"24 hour pre-call complete for {form.work_market_num}",
        { w with discussions := w.discussions ++
            [(r.sheet_id, r.row_id, s!"Tech needs to be changed to {form.tech_name}.")] }) := by
  have hfind : find_row_by_wm w.report_rows form.work_market_num = Except.ok (some r) := by
    rw [hrows]
    simp [find_row_by_wm, hwm, except_bind_ok]
  simp [submit_form, hfind, hflag, htd, hname, hsite, hparse, htime, hdate, hloc,
    hcomment, except_bind_ok, joinSep]

/-- A submission identical to `formC` except for the tech name. -/
def formD : Form := { formC with tech_name := "Sam Roe" }

/-- C10 witness: the mismatching submission on the concrete row/form pair. -/
theorem C10_witness :
    submit_form phoneLibC none formD worldC =
      Except.ok (s!"24 hour pre-call complete for {formD.work_market_num}",
        { worldC with discussions := worldC.discussions ++
            [(rowC.sheet_id, rowC.row_id, s!"Tech needs to be changed to {formD.tech_name}.")] }) :=
  C10_submit_form_mismatch_same_message phoneLibC formD worldC rowC td0 810
    rfl rfl rfl rfl (by decide) rfl rfl rfl rfl rfl rfl
